import Mathlib

/-!
Shallow embedding of the btrfsutil-rs safe layer over libbtrfsutil.

Paths and C strings are modelled as byte lists (`List Nat`, one entry per
byte, values < 256 in all uses).  Boundary (C library) calls are modelled by
passing their observable outputs — a numeric status code plus any
out-parameters — as explicit arguments to the embedded functions, so every
embedded operation is a pure function of the boundary's answers.
-/

namespace Btrfsutil

/-- A byte string: the content of a Rust `PathBuf` / `CString` (without the
terminating NUL, which `CString` appends and strips implicitly). -/
abbrev Bytes := List Nat

/-! ## Error taxonomy (src/error/glue.rs, src/error/lib.rs, src/error/mod.rs) -/

/-- `GlueError` (src/error/glue.rs): translation failures local to the safe
layer.  Payloads are reduced to the data the claims depend on. -/
inductive GlueError where
  | UnknownErrno (errno : Nat)
  | NullPointerReceived
  | Utf8Error
  | BadPath (path : Bytes)
  | NulError
  | UuidError (len : Nat)
  | BadTimespec
  | BadId (id : Nat)
  deriving DecidableEq, Repr

/-- `LibError` (src/error/lib.rs): the 27 status codes of libbtrfsutil,
in declaration order, with discriminants 0..26. -/
inductive LibError where
  | Ok
  | StopIteration
  | NoMemory
  | InvalidArgument
  | NotBtrfs
  | NotSubvolume
  | SubvolumeNotFound
  | OpenFailed
  | RmdirFailed
  | UnlinkFailed
  | StatFailed
  | StatfsFailed
  | SearchFailed
  | InoLookupFailed
  | SubvolGetflagsFailed
  | SubvolSetflagsFailed
  | SubvolCreateFailed
  | SnapCreateFailed
  | SnapDestroyFailed
  | DefaultSubvolFailed
  | SyncFailed
  | StartSyncFailed
  | WaitSyncFailed
  | GetSubvolInfoFailed
  | GetSubvolRootrefFailed
  | InoLookupUserFailed
  | FsInfoFailed
  deriving DecidableEq, Repr

/-- The numeric discriminant of each `LibError` variant (the `as isize`
values inherited from the C enum, 0..26). -/
def LibError.code : LibError → Nat
  | .Ok => 0
  | .StopIteration => 1
  | .NoMemory => 2
  | .InvalidArgument => 3
  | .NotBtrfs => 4
  | .NotSubvolume => 5
  | .SubvolumeNotFound => 6
  | .OpenFailed => 7
  | .RmdirFailed => 8
  | .UnlinkFailed => 9
  | .StatFailed => 10
  | .StatfsFailed => 11
  | .SearchFailed => 12
  | .InoLookupFailed => 13
  | .SubvolGetflagsFailed => 14
  | .SubvolSetflagsFailed => 15
  | .SubvolCreateFailed => 16
  | .SnapCreateFailed => 17
  | .SnapDestroyFailed => 18
  | .DefaultSubvolFailed => 19
  | .SyncFailed => 20
  | .StartSyncFailed => 21
  | .WaitSyncFailed => 22
  | .GetSubvolInfoFailed => 23
  | .GetSubvolRootrefFailed => 24
  | .InoLookupUserFailed => 25
  | .FsInfoFailed => 26

/-- `BtrfsUtilError` (src/error/mod.rs, feature `enable-glue-errors`):
tagged union of the two failure domains. -/
inductive BtrfsUtilError where
  | Glue (g : GlueError)
  | Lib (e : LibError)
  deriving DecidableEq, Repr

/-- `Result<T>` = `std::result::Result<T, BtrfsUtilError>` (src/lib.rs). -/
abbrev Result (α : Type) := Except BtrfsUtilError α

/-- `impl TryFrom<LibErrorCode> for LibError` (src/error/lib.rs lines
142-209): codes above 26 become `UnknownErrno`; codes 0..26 map to the
variant of the same discriminant; the final catch-all arm is unreachable. -/
def LibError.try_from (errno : Nat) : Result LibError :=
  if errno > 26 then .error (.Glue (.UnknownErrno errno)) else
  match errno with
  | 0 => .ok .Ok
  | 1 => .ok .StopIteration
  | 2 => .ok .NoMemory
  | 3 => .ok .InvalidArgument
  | 4 => .ok .NotBtrfs
  | 5 => .ok .NotSubvolume
  | 6 => .ok .SubvolumeNotFound
  | 7 => .ok .OpenFailed
  | 8 => .ok .RmdirFailed
  | 9 => .ok .UnlinkFailed
  | 10 => .ok .StatFailed
  | 11 => .ok .StatfsFailed
  | 12 => .ok .SearchFailed
  | 13 => .ok .InoLookupFailed
  | 14 => .ok .SubvolGetflagsFailed
  | 15 => .ok .SubvolSetflagsFailed
  | 16 => .ok .SubvolCreateFailed
  | 17 => .ok .SnapCreateFailed
  | 18 => .ok .SnapDestroyFailed
  | 19 => .ok .DefaultSubvolFailed
  | 20 => .ok .SyncFailed
  | 21 => .ok .StartSyncFailed
  | 22 => .ok .WaitSyncFailed
  | 23 => .ok .GetSubvolInfoFailed
  | 24 => .ok .GetSubvolRootrefFailed
  | 25 => .ok .InoLookupUserFailed
  | 26 => .ok .FsInfoFailed
  | n => .error (.Glue (.UnknownErrno n))

/-- The `unsafe_wrapper!` macro (src/common.rs): a boundary call returning
status code `errcode` succeeds when the code is 0 and otherwise yields the
mapped `LibError` as an error, propagating the `UnknownErrno` glue error
raised by `LibError::try_from` for out-of-range codes. -/
def unsafeWrapper (errcode : Nat) : Result Unit :=
  if errcode > 0 then
    match LibError.try_from errcode with
    | .ok e => .error (.Lib e)
    | .error g => .error g
  else .ok ()

/-! ## Path marshaling (src/common.rs) -/

/-- UTF-8 continuation byte test (0x80..0xBF). -/
def contByte (b : Nat) : Bool := 0x80 ≤ b && b ≤ 0xBF

/-- UTF-8 validity of a byte sequence, as checked by Rust's
`Path::to_str` (which succeeds exactly on well-formed UTF-8): one-byte
ASCII, two- to four-byte sequences with the standard range restrictions
(no overlongs, no surrogates, max U+10FFFF). -/
def validUtf8 : Bytes → Bool
  | [] => true
  | b :: rest =>
    if b ≤ 0x7F then validUtf8 rest
    else if 0xC2 ≤ b && b ≤ 0xDF then
      match rest with
      | c1 :: r => contByte c1 && validUtf8 r
      | [] => false
    else if b = 0xE0 then
      match rest with
      | c1 :: c2 :: r => (0xA0 ≤ c1 && c1 ≤ 0xBF) && contByte c2 && validUtf8 r
      | _ => false
    else if (0xE1 ≤ b && b ≤ 0xEC) || b = 0xEE || b = 0xEF then
      match rest with
      | c1 :: c2 :: r => contByte c1 && contByte c2 && validUtf8 r
      | _ => false
    else if b = 0xED then
      match rest with
      | c1 :: c2 :: r => (0x80 ≤ c1 && c1 ≤ 0x9F) && contByte c2 && validUtf8 r
      | _ => false
    else if b = 0xF0 then
      match rest with
      | c1 :: c2 :: c3 :: r =>
        (0x90 ≤ c1 && c1 ≤ 0xBF) && contByte c2 && contByte c3 && validUtf8 r
      | _ => false
    else if 0xF1 ≤ b && b ≤ 0xF3 then
      match rest with
      | c1 :: c2 :: c3 :: r => contByte c1 && contByte c2 && contByte c3 && validUtf8 r
      | _ => false
    else if b = 0xF4 then
      match rest with
      | c1 :: c2 :: c3 :: r =>
        (0x80 ≤ c1 && c1 ≤ 0x8F) && contByte c2 && contByte c3 && validUtf8 r
      | _ => false
    else false

/-- `common::path_to_cstr` (src/common.rs lines 15-25): `path.to_str()`
fails (→ `GlueError::BadPath`) unless the bytes are valid UTF-8;
`CString::new` fails (→ `GlueError::NulError`) when a NUL byte is embedded;
on success the C string carries exactly the path's bytes. -/
def path_to_cstr (path : Bytes) : Result Bytes :=
  match validUtf8 path with
  | false => .error (.Glue (.BadPath path))
  | true =>
    if (0 : Nat) ∈ path then .error (.Glue .NulError)
    else .ok path

/-- Decidable equality for `Except` values, so concrete runs of the
embedded operations can be checked by evaluation. -/
instance {ε α : Type} [DecidableEq ε] [DecidableEq α] : DecidableEq (Except ε α) := fun x y =>
  match x, y with
  | .ok a, .ok b =>
    if h : a = b then isTrue (by rw [h]) else isFalse (by intro hh; cases hh; exact h rfl)
  | .error a, .error b =>
    if h : a = b then isTrue (by rw [h]) else isFalse (by intro hh; cases hh; exact h rfl)
  | .ok _, .error _ => isFalse (by intro hh; cases hh)
  | .error _, .ok _ => isFalse (by intro hh; cases hh)

/-! ## Subvolume entity (src/subvolume/subvol.rs) -/

/-- `Subvolume` (src/subvolume/subvol.rs lines 51-54): identity is an id
plus a path. -/
structure Subvolume where
  id : Nat
  path : Bytes
  deriving DecidableEq, Repr

/-- Out-parameters of a boundary call filling a single u64 id: the status
code and the id written through the out pointer. -/
structure IdLookup where
  code : Nat
  id : Nat
  deriving DecidableEq, Repr

/-- Out-parameters of `btrfs_util_subvolume_path`: the status code and the
returned path C string. -/
structure PathLookup where
  code : Nat
  path : Bytes
  deriving DecidableEq, Repr

/-- `Subvolume::new` (src/subvolume/subvol.rs lines 309-319): plain record
construction; the id is stored as given, with no validation. -/
def Subvolume.new (id : Nat) (path : Bytes) : Subvolume := ⟨id, path⟩

/-- `Subvolume::is_subvolume_impl` (src/subvolume/subvol.rs lines 252-256,
src/subvolume/mod.rs lines 88-97): convert the path, then return the
`unsafe_wrapper` result of `btrfs_util_is_subvolume` — `Ok(())` exactly
when the boundary status code is 0, an error otherwise. -/
def Subvolume.is_subvolume_impl (path : Bytes) (isSubvolCode : Nat) : Result Unit :=
  match path_to_cstr path with
  | .error e => .error e
  | .ok _ => unsafeWrapper isSubvolCode

/-- `Subvolume::get_impl` (src/subvolume/subvol.rs lines 67-78): check
`is_subvolume`, then read the id via `btrfs_util_subvolume_id` and build a
Subvolume from that id and the queried path. -/
def Subvolume.get_impl (path : Bytes) (isSubvolCode : Nat) (idLookup : IdLookup) :
    Result Subvolume :=
  match Subvolume.is_subvolume_impl path isSubvolCode with
  | .error e => .error e
  | .ok _ =>
    match path_to_cstr path with
    | .error e => .error e
    | .ok _ =>
      match unsafeWrapper idLookup.code with
      | .error e => .error e
      | .ok _ => .ok (Subvolume.new idLookup.id path)

/-- `Subvolume::get_default_impl` (src/subvolume/subvol.rs lines 199-206):
read the default subvolume id via `btrfs_util_get_default_subvolume` and
build a Subvolume from that id and the argument path, unvalidated. -/
def Subvolume.get_default_impl (path : Bytes) (defaultLookup : IdLookup) : Result Subvolume :=
  match path_to_cstr path with
  | .error e => .error e
  | .ok _ =>
    match unsafeWrapper defaultLookup.code with
    | .error e => .error e
    | .ok _ => .ok (Subvolume.new defaultLookup.id path)

/-- `impl TryFrom<u64> for Subvolume` (src/subvolume/subvol.rs lines
337-350), lookup-by-id: resolve a path for the id via
`btrfs_util_subvolume_path` relative to the current working directory
`cwd`, and build a Subvolume from the id, unvalidated. -/
def Subvolume.try_from_id (src : Nat) (cwd : Bytes) (pathLookup : PathLookup) :
    Result Subvolume :=
  match path_to_cstr cwd with
  | .error e => .error e
  | .ok _ =>
    match unsafeWrapper pathLookup.code with
    | .error e => .error e
    | .ok _ => .ok (Subvolume.new src pathLookup.path)

/-- `Subvolume::deleted` (src/subvolume/subvol.rs lines 156-187): list the
deleted-but-not-yet-cleaned-up subvolumes under `fsRoot`. The boundary
fills an id array (`none` models a NULL pointer) and a count; a zero count
short-circuits to an empty list; otherwise the first `idsCount` ids are
each paired with the `fsRoot` argument itself. -/
def Subvolume.deleted (fsRoot : Bytes) (code : Nat) (idsPtr : Option (List Nat))
    (idsCount : Nat) : Result (List Subvolume) :=
  match path_to_cstr fsRoot with
  | .error e => .error e
  | .ok _ =>
    match unsafeWrapper code with
    | .error e => .error e
    | .ok _ =>
      if idsCount = 0 then .ok []
      else
        match idsPtr with
        | none => .error (.Glue .NullPointerReceived)
        | some ids => .ok ((ids.take idsCount).map (fun id => Subvolume.new id fsRoot))

/-- `Subvolume::create` (src/subvolume/subvol.rs lines 115-121): the public
entry point's whole body is `Self::create(path.into(), qgroup.into())` — a
call to itself with the same arguments. `fuel` bounds the call-stack depth;
`none` means the recursion exhausted the stack without producing a value. -/
def Subvolume.create (fuel : Nat) (path : Bytes) (qgroup : Option Unit) :
    Option (Result Subvolume) :=
  match fuel with
  | 0 => none
  | n + 1 => Subvolume.create n path qgroup

/-- `Subvolume::create_impl` (src/subvolume/subvol.rs lines 123-137): issue
`btrfs_util_create_subvolume` (status `createCode`), then resolve the
just-created path freshly through `Subvolume::get`. -/
def Subvolume.create_impl (path : Bytes) (_qgroup : Option Unit) (createCode : Nat)
    (isSubvolCode : Nat) (idLookup : IdLookup) : Result Subvolume :=
  match path_to_cstr path with
  | .error e => .error e
  | .ok _ =>
    match unsafeWrapper createCode with
    | .error e => .error e
    | .ok _ => Subvolume.get_impl path isSubvolCode idLookup

/-! ## Sync facility (src/sync.rs) -/

/-- `sync_impl` (src/sync.rs lines 19-31), instrumented with the
transaction id that phase 2 waited on (`none` when `btrfs_util_wait_sync`
was never invoked). Phase 1, `btrfs_util_start_sync`, answers with status
`startCode` and fills `asyncTransid`; phase 2 waits on exactly that id, the
boundary answering with status `waitCode asyncTransid`. -/
def sync_impl (path : Bytes) (startCode : Nat) (asyncTransid : Nat)
    (waitCode : Nat → Nat) : Result Unit × Option Nat :=
  match path_to_cstr path with
  | .error e => (.error e, none)
  | .ok _ =>
    match unsafeWrapper startCode with
    | .error e => (.error e, none)
    | .ok _ =>
      match unsafeWrapper (waitCode asyncTransid) with
      | .error e => (.error e, some asyncTransid)
      | .ok _ => (.ok (), some asyncTransid)

/-! ## Subvolume iterator (src/subvolume/iterator.rs) -/

/-- One answer of the boundary cursor to a
`btrfs_util_subvolume_iterator_next` request: the status code plus the two
out-parameters (an optional returned path C string, and an id). -/
structure NextRaw where
  code : Nat
  pathOut : Option Bytes
  idOut : Nat
  deriving DecidableEq, Repr

/-- `SubvolumeIterator` (src/subvolume/iterator.rs line 25): a live handle
on a boundary cursor. The cursor is modelled by its pending answers;
`released` records whether `btrfs_util_destroy_subvolume_iterator` has
run on it. -/
structure SubvolumeIterator where
  responses : List NextRaw
  released : Bool
  deriving DecidableEq, Repr

/-- `SubvolumeIterator::new_impl` (src/subvolume/iterator.rs lines 37-60):
convert the path, issue `btrfs_util_create_subvolume_iterator` (status
`createCode`, cursor out-pointer modelled by its pending answers `cursor`)
and wrap the raw cursor pointer. No next request is issued and the cursor
is not destroyed. -/
def SubvolumeIterator.new_impl (path : Bytes) (createCode : Nat)
    (cursor : List NextRaw) : Result SubvolumeIterator :=
  match path_to_cstr path with
  | .error e => .error e
  | .ok _ =>
    match unsafeWrapper createCode with
    | .error e => .error e
    | .ok _ => .ok { responses := cursor, released := false }

/-- `impl Drop for SubvolumeIterator` (src/subvolume/iterator.rs lines
89-95): destroy the boundary cursor. -/
def SubvolumeIterator.drop (it : SubvolumeIterator) : SubvolumeIterator :=
  { it with released := true }

/-- Outcome of one `Iterator::next` call on a SubvolumeIterator: end of
iteration, an item (possibly an error), or the `panic!` hit when the
boundary yields a null path together with a zero id. -/
inductive StepResult where
  | stop
  | item (r : Result Subvolume)
  | panicked
  deriving DecidableEq, Repr

/-- `impl Iterator for SubvolumeIterator`, `next` (src/subvolume/iterator.rs
lines 66-86): consume the cursor's next answer. `StopIteration` ends the
sequence; another failure becomes an error item; a returned path is
resolved through `Subvolume::get`; a null path with nonzero id goes through
`Subvolume::try_from(id)` (no minimum-id check); a null path with id 0
panics. `isSubvolCode`/`idLookup` are the boundary answers consumed by the
inner `Subvolume::get`; `cwd`/`pathLookup` those of `Subvolume::try_from`. -/
def SubvolumeIterator.next (it : SubvolumeIterator)
    (isSubvolCode : Nat) (idLookup : IdLookup) (cwd : Bytes) (pathLookup : PathLookup) :
    StepResult × SubvolumeIterator :=
  match it.responses with
  | [] => (.stop, it)
  | r :: rest =>
    let it2 : SubvolumeIterator := { it with responses := rest }
    match unsafeWrapper r.code with
    | .error e =>
      if e = .Lib .StopIteration then (.stop, it2) else (.item (.error e), it2)
    | .ok _ =>
      match r.pathOut with
      | some p => (.item (Subvolume.get_impl p isSubvolCode idLookup), it2)
      | none =>
        if r.idOut ≠ 0 then (.item (Subvolume.try_from_id r.idOut cwd pathLookup), it2)
        else (.panicked, it2)

/-! ## Subvolume info (src/subvolume/subvol_info.rs) -/

/-- A raw `timespec` as filled by the boundary. -/
structure Timespec where
  sec : Int
  nsec : Nat
  deriving DecidableEq, Repr

/-- `chrono::DateTime<Local>` as produced by `Local.timestamp(sec, nsec)`:
the raw instant together with the local timezone's UTC offset in seconds. -/
structure LocalDateTime where
  sec : Int
  nsec : Nat
  tzOffset : Int
  deriving DecidableEq, Repr

/-- `DateTime::second()`: the second-of-minute (0..59) of the local wall
clock reading. -/
def LocalDateTime.second (t : LocalDateTime) : Int := (t.sec + t.tzOffset).emod 60

/-- `DateTime::nanosecond()`. -/
def LocalDateTime.nanosecond (t : LocalDateTime) : Nat := t.nsec

/-- `Local.timestamp(sec, nsec)` in a process whose local timezone has UTC
offset `tzOffset` seconds. -/
def localTimestamp (tzOffset : Int) (ts : Timespec) : LocalDateTime :=
  ⟨ts.sec, ts.nsec, tzOffset⟩

/-- The raw `btrfs_util_subvolume_info` struct as filled by the boundary
(src/subvolume/subvol_info.rs lines 89-119). UUID fields are byte strings
(16 bytes when well-formed). -/
structure RawSubvolumeInfo where
  id : Nat
  parent_id : Nat
  dir_id : Nat
  flags : Nat
  uuid : Bytes
  parent_uuid : Bytes
  received_uuid : Bytes
  generation : Nat
  ctransid : Nat
  otransid : Nat
  stransid : Nat
  rtransid : Nat
  ctime : Timespec
  otime : Timespec
  stime : Timespec
  rtime : Timespec
  deriving DecidableEq, Repr

/-- `SubvolumeInfo` (src/subvolume/subvol_info.rs lines 26-76). -/
structure SubvolumeInfo where
  id : Nat
  path : Bytes
  parent_id : Option Nat
  dir_id : Option Nat
  flags : Nat
  uuid : Bytes
  parent_uuid : Option Bytes
  received_uuid : Option Bytes
  generation : Nat
  ctransid : Nat
  otransid : Nat
  stransid : Option Nat
  rtransid : Option Nat
  ctime : LocalDateTime
  otime : LocalDateTime
  stime : Option LocalDateTime
  rtime : Option LocalDateTime
  deriving DecidableEq, Repr

/-- A Rust computation that either returns a value or panics. -/
inductive Outcome (α : Type) where
  | ok (a : α)
  | panicked (msg : String)
  deriving DecidableEq, Repr

/-- `Uuid::from_slice` (uuid crate): succeeds exactly on 16-byte input,
otherwise reports the offending length. -/
def uuidFromSlice (b : Bytes) : Except Nat Bytes :=
  if b.length = 16 then .ok b else .error b.length

/-- `Uuid::is_nil`: all bytes zero. -/
def uuidIsNil (b : Bytes) : Bool := b.all (fun x => x = 0)

/-- `SubvolumeInfo::try_from` (src/subvolume/subvol_info.rs lines 87-202):
query the boundary (status `queryCode`, raw out-struct `info`), then
decode: the three UUIDs go through `Uuid::from_slice(..).expect(..)` — a
panic on malformed bytes, not an error; the four timestamps through
`Local.timestamp`; the zero / all-zero id and UUID sentinels become `None`;
`stime`/`rtime` become `None` when the converted local time has both
`nanosecond() == 0` and `second() == 0`. -/
def SubvolumeInfo.try_from (tzOffset : Int) (srcPath : Bytes) (queryCode : Nat)
    (info : RawSubvolumeInfo) : Outcome (Result SubvolumeInfo) :=
  match path_to_cstr srcPath with
  | .error e => .ok (.error e)
  | .ok _ =>
  match unsafeWrapper queryCode with
  | .error e => .ok (.error e)
  | .ok _ =>
  match uuidFromSlice info.uuid with
  | .error _ => .panicked "Failed to get uuid from C"
  | .ok uuid =>
  match uuidFromSlice info.parent_uuid with
  | .error _ => .panicked "Failed to get parent uuid from C"
  | .ok parent_uuid_val =>
  match uuidFromSlice info.received_uuid with
  | .error _ => .panicked "Failed to get received uuid from C"
  | .ok received_uuid_val =>
    let ctime := localTimestamp tzOffset info.ctime
    let otime := localTimestamp tzOffset info.otime
    let stime_val := localTimestamp tzOffset info.stime
    let rtime_val := localTimestamp tzOffset info.rtime
    .ok (.ok {
      id := info.id
      path := srcPath
      parent_id := if info.parent_id = 0 then none else some info.parent_id
      dir_id := if info.dir_id = 0 then none else some info.dir_id
      flags := info.flags
      uuid := uuid
      parent_uuid := if uuidIsNil parent_uuid_val then none else some parent_uuid_val
      received_uuid := if uuidIsNil received_uuid_val then none else some received_uuid_val
      generation := info.generation
      ctransid := info.ctransid
      otransid := info.otransid
      stransid := if info.stransid = 0 then none else some info.stransid
      rtransid := if info.rtransid = 0 then none else some info.rtransid
      ctime := ctime
      otime := otime
      stime := if stime_val.nanosecond = 0 ∧ stime_val.second = 0 then none else some stime_val
      rtime :=
        if rtime_val.nanosecond = 0 ∧ rtime_val.second = 0 then none else some rtime_val })

/-- Projection of a `SubvolumeInfo::try_from` outcome onto the send-time
field (`none` when the derivation did not return an info value). -/
def infoStime : Outcome (Result SubvolumeInfo) → Option (Option LocalDateTime)
  | .ok (.ok i) => some i.stime
  | _ => none

/-- Fixture: a well-formed raw info record (16-byte UUID fields) with raw
zero send/receive timestamps. -/
def rawInfoPlain : RawSubvolumeInfo :=
  { id := 5, parent_id := 0, dir_id := 0, flags := 0,
    uuid := List.replicate 16 1, parent_uuid := List.replicate 16 0,
    received_uuid := List.replicate 16 0,
    generation := 1, ctransid := 1, otransid := 1, stransid := 0, rtransid := 0,
    ctime := ⟨100, 5⟩, otime := ⟨90, 0⟩, stime := ⟨0, 0⟩, rtime := ⟨0, 0⟩ }

/-- Fixture: as `rawInfoPlain` but with nonzero send/receive timestamps
that fall exactly on a minute boundary (tv_sec multiple of 60, tv_nsec 0). -/
def rawInfoMinuteStime : RawSubvolumeInfo :=
  { rawInfoPlain with stime := ⟨60, 0⟩, rtime := ⟨120, 0⟩ }

/-- Fixture: as `rawInfoPlain` but with a malformed (15-byte) UUID field. -/
def rawInfoShortUuid : RawSubvolumeInfo :=
  { rawInfoPlain with uuid := List.replicate 15 0 }

end Btrfsutil

namespace Btrfsutil

/-! ## Claims C8 and C9 -/

/-- Claim C8: converting a native path for the boundary fails with a
translation error whenever the path is not losslessly representable in the
required encoding (UTF-8) or contains an embedded NUL, and on success the
produced byte string is byte-for-byte the path's own representation. -/
theorem C8_path_to_cstr_lossless (path : Bytes) :
    (validUtf8 path = false → path_to_cstr path = .error (.Glue (.BadPath path))) ∧
    (validUtf8 path = true → (0 : Nat) ∈ path →
      path_to_cstr path = .error (.Glue .NulError)) ∧
    (∀ out, path_to_cstr path = .ok out → out = path) := by
  refine ⟨fun h => by simp [path_to_cstr, h], fun h h0 => by simp [path_to_cstr, h, h0],
    fun out hout => ?_⟩
  unfold path_to_cstr at hout
  cases hv : validUtf8 path with
  | false => simp [hv] at hout
  | true =>
    rw [hv] at hout
    by_cases h0 : (0 : Nat) ∈ path
    · simp [h0] at hout
    · simp [h0] at hout
      exact hout.symm

/-- Witness for C8 at concrete inputs: an invalid UTF-8 byte, an embedded
NUL, and a plain ASCII path that round-trips byte-for-byte. -/
theorem C8_witness :
    path_to_cstr [0xFF] = .error (.Glue (.BadPath [0xFF])) ∧
    path_to_cstr [0x2F, 0x00, 0x61] = .error (.Glue .NulError) ∧
    path_to_cstr [0x2F, 0x74, 0x6D, 0x70] = .ok [0x2F, 0x74, 0x6D, 0x70] := by
  refine ⟨(C8_path_to_cstr_lossless [0xFF]).1 (by decide),
    (C8_path_to_cstr_lossless [0x2F, 0x00, 0x61]).2.1 (by decide) (by decide), by decide⟩

/-- Claim C9: every boundary status code above the largest known code (26)
converts to the `UnknownErrno` translation error carrying the raw value,
and every code in the known set 0..26 converts to the uniquely matching
named variant (the one whose own discriminant equals the code). -/
theorem C9_error_code_mapping (errno : Nat) :
    (26 < errno → LibError.try_from errno = .error (.Glue (.UnknownErrno errno))) ∧
    (errno ≤ 26 → (LibError.try_from errno).map LibError.code = .ok errno) := by
  constructor
  · intro h
    unfold LibError.try_from
    simp [Nat.lt_iff_add_one_le.mp h, show errno > 26 from h]
  · intro h
    have hb : ∀ n, n < 27 → (LibError.try_from n).map LibError.code = .ok n := by decide
    exact hb errno (Nat.lt_succ_of_le h)

/-- Witness for C9: code 4 maps to `NotBtrfs` (discriminant 4), code 27 is
unknown and carries the raw value. -/
theorem C9_witness :
    (LibError.try_from 27 = .error (.Glue (.UnknownErrno 27))) ∧
    (LibError.try_from 4).map LibError.code = .ok 4 ∧
    LibError.try_from 4 = .ok .NotBtrfs := by
  exact ⟨(C9_error_code_mapping 27).1 (by decide), (C9_error_code_mapping 4).2 (by decide),
    by decide⟩

end Btrfsutil

namespace Btrfsutil

/-! ## Shared evaluation lemmas -/

/-- A status code of 0 means the boundary call succeeded. -/
theorem unsafeWrapper_zero : unsafeWrapper 0 = .ok () := rfl

/-- A positive status code always surfaces as some typed error. -/
theorem unsafeWrapper_pos (n : Nat) (h : 0 < n) : ∃ e, unsafeWrapper n = .error e := by
  unfold unsafeWrapper
  rw [if_pos h]
  cases LibError.try_from n with
  | ok e => exact ⟨.Lib e, rfl⟩
  | error g => exact ⟨g, rfl⟩

/-- Evaluation of `sync_impl` once phase 1 succeeded with code 0. -/
theorem sync_impl_start_ok (path : Bytes) (asyncTransid : Nat) (waitCode : Nat → Nat)
    (hp : path_to_cstr path = .ok path) :
    sync_impl path 0 asyncTransid waitCode =
      (match unsafeWrapper (waitCode asyncTransid) with
       | .error e => (.error e, some asyncTransid)
       | .ok _ => (.ok (), some asyncTransid)) := by
  unfold sync_impl
  rw [hp]
  rfl

/-! ## Claim C1 -/

/-- Claim C1 counterexample: the code performs no minimum-id validation.
With the boundary reporting id 3 (below the reserved root-tree id 5),
get-default returns an ordinary `Ok(Subvolume)` carrying id 3 — not the
"bad id" translation error — and lookup-by-id does the same. -/
theorem C1_counterexample :
    Subvolume.get_default_impl [47] ⟨0, 3⟩ = .ok (Subvolume.new 3 [47]) ∧
    Subvolume.try_from_id 3 [47] ⟨0, [47, 97]⟩ = .ok (Subvolume.new 3 [47, 97]) ∧
    (3 : Nat) < 5 ∧
    Subvolume.get_default_impl [47] ⟨0, 3⟩ ≠ .error (.Glue (.BadId 3)) := by
  refine ⟨rfl, rfl, by decide, by decide⟩

/-- Claim C1 amended: no entity-constructing operation validates ids
against the minimum legal subvolume id. Whenever the boundary answers
successfully, get-default, lookup-by-id, and the iterator's per-item
construction store the boundary-reported id as given — including ids below
5 — and the `BadId` translation-error variant is never raised by them. -/
theorem C1_amended_no_min_id_check (p cwd : Bytes) (id : Nat) (pl : PathLookup)
    (hp : path_to_cstr p = .ok p) (hc : path_to_cstr cwd = .ok cwd) (hl : pl.code = 0) :
    Subvolume.get_default_impl p ⟨0, id⟩ = .ok (Subvolume.new id p) ∧
    Subvolume.try_from_id id cwd pl = .ok (Subvolume.new id pl.path) ∧
    (id ≠ 0 →
      (SubvolumeIterator.next ⟨[⟨0, none, id⟩], false⟩ 0 ⟨0, 0⟩ cwd pl).1
        = .item (.ok (Subvolume.new id pl.path))) := by
  refine ⟨?_, ?_, ?_⟩
  · unfold Subvolume.get_default_impl
    rw [hp]
    rfl
  · unfold Subvolume.try_from_id
    rw [hc, hl]
    rfl
  · intro hid
    unfold SubvolumeIterator.next
    unfold Subvolume.try_from_id
    rw [hc, hl]
    dsimp only
    rw [if_pos hid]
    rfl

/-- Witness for the C1 amended theorem at id 3 (below the minimum). -/
theorem C1_amended_witness :
    Subvolume.get_default_impl [47] ⟨0, 3⟩ = .ok (Subvolume.new 3 [47]) ∧
    Subvolume.try_from_id 3 [47] ⟨0, [47, 98]⟩ = .ok (Subvolume.new 3 [47, 98]) ∧
    (SubvolumeIterator.next ⟨[⟨0, none, 3⟩], false⟩ 0 ⟨0, 0⟩ [47] ⟨0, [47, 98]⟩).1
      = .item (.ok (Subvolume.new 3 [47, 98])) := by
  have h := C1_amended_no_min_id_check [47] [47] 3 ⟨0, [47, 98]⟩ (by decide) (by decide) rfl
  exact ⟨h.1, h.2.1, h.2.2 (by decide)⟩

/-! ## Claim C2 -/

/-- Claim C2: contrary to the claim (and to the crate's own test
assertions, which expect `Ok(false)`), `is_subvolume` is not a boolean
predicate: its result type is `Result<()>` and for a path that is not a
subvolume root it returns a library error — code 4 (`NotBtrfs`) for a path
on another filesystem kind, code 5 (`NotSubvolume`) for an ordinary
directory inside a subvolume, code 7 (`OpenFailed`) for a nonexistent
path — instead of a successful `false`. -/
theorem C2_is_subvolume_error_not_bool :
    Subvolume.is_subvolume_impl [47, 116, 109, 112] 4 = .error (.Lib .NotBtrfs) ∧
    Subvolume.is_subvolume_impl [47, 116, 109, 112] 5 = .error (.Lib .NotSubvolume) ∧
    Subvolume.is_subvolume_impl [47, 102, 111, 111] 7 = .error (.Lib .OpenFailed) ∧
    Subvolume.is_subvolume_impl [47, 116, 109, 112] 0 = .ok () := by
  refine ⟨rfl, rfl, rfl, rfl⟩

/-! ## Claim C3 -/

/-- Claim C3 counterexample: iterator construction does not drain the
boundary cursor and does not release it. On a cursor holding one pending
item and a stop answer, construction returns a live `SubvolumeIterator`
whose pending answers are untouched and whose cursor is unreleased — not a
materialized sequence. -/
theorem C3_counterexample :
    SubvolumeIterator.new_impl [47] 0 [⟨0, some [47, 97], 0⟩, ⟨1, none, 0⟩]
      = .ok ⟨[⟨0, some [47, 97], 0⟩, ⟨1, none, 0⟩], false⟩ ∧
    (SubvolumeIterator.new_impl [47] 0 [⟨0, some [47, 97], 0⟩, ⟨1, none, 0⟩]).map
      SubvolumeIterator.released ≠ .ok true := by
  refine ⟨rfl, by decide⟩

/-- Claim C3 amended: construction only opens the boundary cursor and
returns it as a live, lazily-advanced iterator: every pending cursor answer
is still unread, no next request has been issued, and the cursor is
unreleased when construction returns; the cursor resource is released by
`Drop`, when the iterator value goes out of scope. -/
theorem C3_amended_lazy_cursor (p : Bytes) (code : Nat) (cursor : List NextRaw)
    (it : SubvolumeIterator) (h : SubvolumeIterator.new_impl p code cursor = .ok it) :
    it.responses = cursor ∧ it.released = false ∧ it.drop.released = true := by
  unfold SubvolumeIterator.new_impl at h
  cases hp : path_to_cstr p with
  | error e => rw [hp] at h; simp at h
  | ok c =>
    rw [hp] at h
    cases hw : unsafeWrapper code with
    | error e => rw [hw] at h; simp at h
    | ok u =>
      rw [hw] at h
      injection h with h2
      subst h2
      exact ⟨rfl, rfl, rfl⟩

/-- Witness for the C3 amended theorem on a concrete cursor. -/
theorem C3_amended_witness :
    (⟨[⟨1, none, 0⟩], false⟩ : SubvolumeIterator).responses = [⟨1, none, 0⟩] ∧
    (⟨[⟨1, none, 0⟩], false⟩ : SubvolumeIterator).released = false ∧
    (SubvolumeIterator.drop ⟨[⟨1, none, 0⟩], false⟩).released = true :=
  C3_amended_lazy_cursor [47] 0 [⟨1, none, 0⟩] ⟨[⟨1, none, 0⟩], false⟩ (by decide)

/-! ## Claim C4 -/

/-- Claim C4: on a raw result whose UUID bytes are malformed (here 15
bytes), deriving SubvolumeInfo panics through
`Uuid::from_slice(..).expect("Failed to get uuid from C")` instead of
returning the `GlueError::UuidError` translation error that the error
taxonomy documents for exactly this case. -/
theorem C4_uuid_expect_panics :
    SubvolumeInfo.try_from 0 [47] 0 rawInfoShortUuid
      = .panicked "Failed to get uuid from C" ∧
    ∀ g : GlueError, SubvolumeInfo.try_from 0 [47] 0 rawInfoShortUuid
      ≠ .ok (.error (.Glue g)) := by
  refine ⟨rfl, ?_⟩
  intro g h
  simp [show SubvolumeInfo.try_from 0 [47] 0 rawInfoShortUuid
      = .panicked "Failed to get uuid from C" from rfl] at h

/-! ## Claim C5 -/

/-- Claim C5: the public `Subvolume::create` never reaches the boundary
creation call or the fresh lookup — its body calls itself with the same
arguments, so for every finite call-stack budget it produces no result
(in the running program: infinite recursion until stack overflow). -/
theorem C5_create_never_returns (fuel : Nat) (path : Bytes) (qgroup : Option Unit) :
    Subvolume.create fuel path qgroup = none := by
  induction fuel with
  | zero => rfl
  | succ n ih => simpa [Subvolume.create] using ih

/-! ## Claim C6 -/

/-- Claim C6 counterexample: with a raw send-time of 60 seconds and 0
nanoseconds — a nonzero raw timestamp — the derived send-time is `None`,
because the code tests the converted calendar time's second-of-minute
(`DateTime::second()`), not the raw seconds value. -/
theorem C6_counterexample :
    infoStime (SubvolumeInfo.try_from 0 [47] 0 rawInfoMinuteStime) = some none ∧
    ¬(rawInfoMinuteStime.stime.sec = 0 ∧ rawInfoMinuteStime.stime.nsec = 0) := by
  refine ⟨rfl, by decide⟩

/-- Claim C6 amended: in a derived SubvolumeInfo the send-time and
receive-time are `None` exactly when the corresponding converted local
calendar time has nanosecond 0 and second-of-minute 0 (with a whole-minute
timezone offset: raw tv_sec divisible by 60 and tv_nsec 0) — a condition
the raw zero timestamp satisfies but minute-aligned nonzero timestamps
satisfy as well; the content-change and creation times are always present. -/
theorem C6_amended_sentinel_on_calendar_second (tz : Int) (p : Bytes)
    (info : RawSubvolumeInfo) (hp : path_to_cstr p = .ok p)
    (h1 : info.uuid.length = 16) (h2 : info.parent_uuid.length = 16)
    (h3 : info.received_uuid.length = 16) :
    ∃ i, SubvolumeInfo.try_from tz p 0 info = .ok (.ok i) ∧
      (i.stime = none ↔ info.stime.nsec = 0 ∧ (info.stime.sec + tz).emod 60 = 0) ∧
      (i.rtime = none ↔ info.rtime.nsec = 0 ∧ (info.rtime.sec + tz).emod 60 = 0) ∧
      i.ctime = localTimestamp tz info.ctime ∧
      i.otime = localTimestamp tz info.otime := by
  have hu1 : uuidFromSlice info.uuid = .ok info.uuid := by simp [uuidFromSlice, h1]
  have hu2 : uuidFromSlice info.parent_uuid = .ok info.parent_uuid := by
    simp [uuidFromSlice, h2]
  have hu3 : uuidFromSlice info.received_uuid = .ok info.received_uuid := by
    simp [uuidFromSlice, h3]
  refine ⟨{
      id := info.id
      path := p
      parent_id := if info.parent_id = 0 then none else some info.parent_id
      dir_id := if info.dir_id = 0 then none else some info.dir_id
      flags := info.flags
      uuid := info.uuid
      parent_uuid := if uuidIsNil info.parent_uuid then none else some info.parent_uuid
      received_uuid :=
        if uuidIsNil info.received_uuid then none else some info.received_uuid
      generation := info.generation
      ctransid := info.ctransid
      otransid := info.otransid
      stransid := if info.stransid = 0 then none else some info.stransid
      rtransid := if info.rtransid = 0 then none else some info.rtransid
      ctime := localTimestamp tz info.ctime
      otime := localTimestamp tz info.otime
      stime :=
        if (localTimestamp tz info.stime).nanosecond = 0 ∧
            (localTimestamp tz info.stime).second = 0 then none
        else some (localTimestamp tz info.stime)
      rtime :=
        if (localTimestamp tz info.rtime).nanosecond = 0 ∧
            (localTimestamp tz info.rtime).second = 0 then none
        else some (localTimestamp tz info.rtime) }, ?_, ?_, ?_, rfl, rfl⟩
  · unfold SubvolumeInfo.try_from
    rw [hp, hu1, hu2, hu3]
    rfl
  · dsimp only
    split_ifs with hc
    · exact iff_of_true rfl hc
    · exact iff_of_false (by simp) hc
  · dsimp only
    split_ifs with hc
    · exact iff_of_true rfl hc
    · exact iff_of_false (by simp) hc

/-- Witness for the C6 amended theorem: raw zero timestamps give `None`
for send/receive time while the always-present times carry the converted
instants. -/
theorem C6_amended_witness :
    ∃ i, SubvolumeInfo.try_from 0 [47] 0 rawInfoPlain = .ok (.ok i) ∧
      (i.stime = none ↔ rawInfoPlain.stime.nsec = 0 ∧
        (rawInfoPlain.stime.sec + 0).emod 60 = 0) ∧
      (i.rtime = none ↔ rawInfoPlain.rtime.nsec = 0 ∧
        (rawInfoPlain.rtime.sec + 0).emod 60 = 0) ∧
      i.ctime = localTimestamp 0 rawInfoPlain.ctime ∧
      i.otime = localTimestamp 0 rawInfoPlain.otime :=
  C6_amended_sentinel_on_calendar_second 0 [47] rawInfoPlain (by decide) (by decide)
    (by decide) (by decide)

/-! ## Claim C7 -/

/-- Claim C7: sync is two-phase. If phase 1 (start-sync) fails, the result
is a typed error and phase 2 (wait) is never attempted (no transaction id
is ever waited on); if phase 1 succeeds, phase 2 waits on exactly the
transaction id obtained in phase 1, and a phase 2 failure also surfaces as
a typed error. -/
theorem C7_sync_two_phase (path : Bytes) (startCode asyncTransid : Nat)
    (waitCode : Nat → Nat) (hp : path_to_cstr path = .ok path) :
    (0 < startCode →
      ∃ e, sync_impl path startCode asyncTransid waitCode = (.error e, none)) ∧
    (startCode = 0 →
      (sync_impl path startCode asyncTransid waitCode).2 = some asyncTransid ∧
      (waitCode asyncTransid = 0 →
        sync_impl path startCode asyncTransid waitCode = (.ok (), some asyncTransid)) ∧
      (0 < waitCode asyncTransid →
        ∃ e, sync_impl path startCode asyncTransid waitCode
          = (.error e, some asyncTransid))) := by
  constructor
  · intro h
    obtain ⟨e, he⟩ := unsafeWrapper_pos startCode h
    refine ⟨e, ?_⟩
    unfold sync_impl
    rw [hp, he]
  · intro h0
    subst h0
    refine ⟨?_, ?_, ?_⟩
    · rw [sync_impl_start_ok path asyncTransid waitCode hp]
      cases hw : unsafeWrapper (waitCode asyncTransid) <;> simp [hw]
    · intro hwc
      rw [sync_impl_start_ok path asyncTransid waitCode hp, hwc]
      rfl
    · intro hwc
      obtain ⟨e, he⟩ := unsafeWrapper_pos (waitCode asyncTransid) hwc
      refine ⟨e, ?_⟩
      rw [sync_impl_start_ok path asyncTransid waitCode hp, he]

/-- Witness for C7: a successful two-phase run, a phase 1 failure (code 21,
start-sync failed) with no wait, and a phase 2 failure (code 22, wait-sync
failed) on the phase 1 transaction id. -/
theorem C7_sync_witness :
    sync_impl [47] 0 7 (fun _ => 0) = (.ok (), some 7) ∧
    (∃ e, sync_impl [47] 21 7 (fun _ => 0) = (.error e, none)) ∧
    (∃ e, sync_impl [47] 0 7 (fun _ => 22) = (.error e, some 7)) :=
  ⟨((C7_sync_two_phase [47] 0 7 (fun _ => 0) (by decide)).2 rfl).2.1 rfl,
    (C7_sync_two_phase [47] 21 7 (fun _ => 0) (by decide)).1 (by decide),
    ((C7_sync_two_phase [47] 0 7 (fun _ => 22) (by decide)).2 rfl).2.2 (by decide)⟩

/-! ## Claim C10 -/

/-- Claim C10: every Subvolume returned by a successful list-deleted call
carries the fs-root argument itself as its path, paired with the deleted
subvolume's id (the returned ids are exactly the boundary-reported ones);
a zero count yields the empty list, not an error. -/
theorem C10_deleted_uses_fs_root (fsRoot : Bytes) (ids : List Nat) (idsCount : Nat)
    (hp : path_to_cstr fsRoot = .ok fsRoot) :
    (idsCount = 0 → Subvolume.deleted fsRoot 0 (some ids) idsCount = .ok []) ∧
    (∀ res, Subvolume.deleted fsRoot 0 (some ids) idsCount = .ok res →
      (∀ sv ∈ res, sv.path = fsRoot) ∧ res.map Subvolume.id = ids.take idsCount) := by
  constructor
  · intro h0
    unfold Subvolume.deleted
    rw [hp, unsafeWrapper_zero, if_pos h0]
  · intro res hres
    unfold Subvolume.deleted at hres
    rw [hp, unsafeWrapper_zero] at hres
    by_cases h0 : idsCount = 0
    · rw [if_pos h0] at hres
      injection hres with h2
      subst h2
      constructor
      · intro sv hsv
        cases hsv
      · simp [h0]
    · rw [if_neg h0] at hres
      injection hres with h2
      subst h2
      constructor
      · intro sv hsv
        simp only [List.mem_map] at hsv
        obtain ⟨i, hi, rfl⟩ := hsv
        rfl
      · simp only [List.map_map]
        have hcomp : (Subvolume.id ∘ fun id => Subvolume.new id fsRoot) = fun id => id := rfl
        rw [hcomp]
        simp

/-- Witness for C10: zero count gives an empty list; a two-id answer gives
two Subvolumes both carrying the fs-root path. -/
theorem C10_witness :
    Subvolume.deleted [47] 0 (some [2, 7]) 0 = .ok [] ∧
    (∀ sv ∈ [Subvolume.new 2 [47], Subvolume.new 7 [47]], sv.path = [47]) ∧
    [Subvolume.new 2 [47], Subvolume.new 7 [47]].map Subvolume.id = [2, 7] := by
  have h := C10_deleted_uses_fs_root [47] [2, 7] 0 (by decide)
  have h2 := (C10_deleted_uses_fs_root [47] [2, 7] 2 (by decide)).2
    [Subvolume.new 2 [47], Subvolume.new 7 [47]] (by decide)
  exact ⟨h.1 rfl, h2.1, by decide⟩

end Btrfsutil
